/-
Verification of the pyradio network/session/signal-processing core against
its natural-language specification.

The Python sources under modules/ are shallowly embedded:
  * modules/socket/settings.py, modules/audio/settings.py,
    modules/modulator/settings.py  -> numeric constants
  * modules/socket/error.py        -> the SocketError inductive
  * modules/modulator/modulator.py -> the Modulator.* functions over List ℝ
    (NumPy float arrays become lists of reals; int16 byte buffers become
    lists of naturals in [0, 256))
  * modules/socket/node.py, client.py, server.py -> explicit state passing:
    ClientState / ServerState records, with socket I/O modelled by an
    environment (a script of incoming packages, and a list of per-call
    kernel send capacities) and an explicit trace of socket events.
-/
import Mathlib

/-! ## Constants (modules/socket/settings.py, modules/audio/settings.py,
modules/modulator/settings.py) -/

/-- modules/socket/settings.py: `PACKAGE_SIZE = 1024 * 4`. -/
def PACKAGE_SIZE : Nat := 1024 * 4

/-- modules/socket/settings.py: `BACKLOG_SIZE = 10`. -/
def BACKLOG_SIZE : Nat := 10

/-- modules/socket/settings.py: `DEFAULT_PORT = 33000`. -/
def DEFAULT_PORT : Int := 33000

/-- modules/socket/settings.py: `ATTEMPT_TIME = 3` (seconds). -/
def ATTEMPT_TIME : Nat := 3

/-- modules/audio/settings.py: `CHANNELS = 2`. -/
def CHANNELS : Nat := 2

/-- modules/audio/settings.py:
`CHUNK_SIZE = PACKAGE_SIZE // CHANNELS // np.dtype(np.int16).itemsize`
(itemsize of int16 is 2 bytes). -/
def CHUNK_SIZE : Nat := PACKAGE_SIZE / CHANNELS / 2

/-- modules/audio/settings.py: `FRAME_RATE = int(44.1e3)`. -/
def FRAME_RATE : Nat := 44100

/-- modules/modulator/settings.py: `AM_CARRIER_FREQ = 3e3`. -/
def AM_CARRIER_FREQ : ℝ := 3000

/-- modules/modulator/settings.py: `CUTOFF = 1e3`. -/
def CUTOFF : ℝ := 1000

/-! ## Formatter color constants (modules/formatter/colors.py) and the
client color palette (modules/socket/settings.py). -/

/-- modules/formatter/colors.py: `RED = "\033[91m"`. -/
def RED : String := "\x1b[91m"

/-- modules/formatter/colors.py: `GREEN = "\033[92m"`. -/
def GREEN : String := "\x1b[92m"

/-- modules/formatter/colors.py: `YELLOW = "\033[93m"`. -/
def YELLOW : String := "\x1b[93m"

/-- modules/formatter/colors.py: `BLUE = "\033[94m"`. -/
def BLUE : String := "\x1b[94m"

/-- modules/formatter/colors.py: `MAGENTA = "\033[95m"`. -/
def MAGENTA : String := "\x1b[95m"

/-- modules/formatter/colors.py: `CYAN = "\033[96m"`. -/
def CYAN : String := "\x1b[96m"

/-- modules/socket/settings.py:
`COLORS = [RED, GREEN, YELLOW, BLUE, MAGENTA, CYAN]`. -/
def COLORS : List String := [RED, GREEN, YELLOW, BLUE, MAGENTA, CYAN]

/-! ## Error taxonomy (modules/socket/error.py)

Each constructor names one exception class of the Python source; the bare
`socketError` constructor is the base class `SocketError` itself, which
`Node.check_connection` raises directly. -/

/-- modules/socket/error.py: the exception classes of the socket layer. -/
inductive SocketError where
  | socketError
  | clientDisconnected
  | connectionTimeout
  | invalidClient
  | invalidName
  | invalidPort
  | portAlreadyUsed
  | portOutOfRange
  | undefinedName
  | unknownHost
deriving DecidableEq, Repr

/-! ## Modulation type constants

Modelled from the spec: modules/modulator/constants.py (defining `AM`,
`AM_SC` and `NO_MOD`) is not under src/; the spec gives the wire strings
`"am" | "am-sc" | "none"` for the three modulation types. -/

/-- Modelled from the spec: the `AM` constant of modules/modulator/constants.py. -/
def AM : String := "am"

/-- Modelled from the spec: the `AM_SC` constant of modules/modulator/constants.py. -/
def AM_SC : String := "am-sc"

/-- Modelled from the spec: the `NO_MOD` constant of modules/modulator/constants.py. -/
def NO_MOD : String := "none"

/-- modules/modulator/modulator.py: `modulations = [AM, AM_SC, NO_MOD]`. -/
def Modulator.modulations : List String := [AM, AM_SC, NO_MOD]

/-! ## Int16 byte codec (Modulator.encode / Modulator.__set_signal)

Bytes are naturals below 256.  `astype(np.int16)` on a float array is the C
float-to-integer cast: truncation toward zero, wrapped into 16 bits (the
wrap models the two-complement bit pattern; the round-trip claims only
exercise in-range values).  `tobytes` serializes little-endian;
`np.frombuffer(b, np.int16)` deserializes pairs of bytes back into signed
16-bit values. -/

/-- Truncation of a real toward zero, as performed by the C float-to-int cast
underlying `astype(np.int16)`. -/
noncomputable def truncToInt (r : ℝ) : Int := if 0 ≤ r then ⌊r⌋ else ⌈r⌉

/-- Reduction of an integer to its signed 16-bit representative, the value
carried by an int16 bit pattern. -/
def wrapInt16 (n : Int) : Int := (n + 32768) % 65536 - 32768

/-- The int16 value a real sample is converted to by `astype(np.int16)`. -/
noncomputable def toInt16 (r : ℝ) : Int := wrapInt16 (truncToInt r)

/-- The two little-endian bytes of the int16 bit pattern of `v`, as laid out
by `ndarray.tobytes()`. -/
def int16ToBytes (v : Int) : List Nat :=
  [(v % 65536).toNat % 256, (v % 65536).toNat / 256]

/-- modules/modulator/modulator.py, `Modulator.encode`:
`self.__signal.astype(np.int16).tobytes()`. -/
noncomputable def Modulator.encode (signal : List ℝ) : List Nat :=
  (signal.map (fun r => int16ToBytes (toInt16 r))).flatten

/-- Deserialization `np.frombuffer(b, np.int16)`: reads little-endian byte pairs
as signed 16-bit integers (a trailing odd byte cannot occur on buffers
produced by `encode`). -/
def bytesToInt16 : List Nat → List Int
  | b0 :: b1 :: rest =>
      (if b0 + 256 * b1 < 32768 then ((b0 + 256 * b1 : Nat) : Int)
       else ((b0 + 256 * b1 : Nat) : Int) - 65536) :: bytesToInt16 rest
  | _ => []

/-- modules/modulator/modulator.py, `Modulator.__set_signal` on a byte
buffer: `np.frombuffer(signal, np.int16)` followed by `flatten()` (already
flat). -/
def Modulator.signalOfBytes (b : List Nat) : List Int := bytesToInt16 b

/-! ## Signal transforms (modules/modulator/modulator.py)

A NumPy float array is embedded as a `List ℝ`; elementwise binary NumPy
operations on same-length arrays become `List.zipWith`. -/

/-- modules/modulator/modulator.py, `Modulator.__am_carrier`:
`t = np.arange(len(self.__signal))` and
`np.cos(2 * np.pi * t * AM_CARRIER_FREQ)`. -/
noncomputable def Modulator.am_carrier (len : Nat) : List ℝ :=
  (List.range len).map
    (fun t : Nat => Real.cos (2 * Real.pi * t * AM_CARRIER_FREQ))

/-- modules/modulator/modulator.py, `Modulator.modulate`: AM multiplies by
the carrier, adds the carrier and halves; AM-SC multiplies by the carrier;
any other modulation type leaves the signal unchanged. -/
noncomputable def Modulator.modulate (modulation : String) (signal : List ℝ) :
    List ℝ :=
  if modulation = AM then
    let carrier := Modulator.am_carrier signal.length
    ((signal.zipWith (· * ·) carrier).zipWith (· + ·) carrier).map (· / 2)
  else if modulation = AM_SC then
    signal.zipWith (· * ·) (Modulator.am_carrier signal.length)
  else signal

/-- modules/modulator/modulator.py, `Modulator.demodulate`: AM takes
`np.abs`; AM-SC multiplies by a freshly regenerated carrier; any other
modulation type leaves the signal unchanged. -/
noncomputable def Modulator.demodulate (modulation : String) (signal : List ℝ) :
    List ℝ :=
  if modulation = AM then signal.map (fun x => |x|)
  else if modulation = AM_SC then
    signal.zipWith (· * ·) (Modulator.am_carrier signal.length)
  else signal

/-! ## Lowpass filter (modules/modulator/modulator.py, `Modulator.__lowpass`)

`scipy.signal.firwin` and `np.convolve` are external library calls; they
are modelled from their documented algorithms.  `firwin(numtaps, cutoff,
window="blackmanharris", pass_zero="lowpass", fs)` returns `numtaps`
coefficients of a Blackman-Harris-windowed sinc at the given cutoff,
normalized to unit DC gain; `np.convolve(a, v, "same")` is the central
`max |a| |v|` entries of the full discrete convolution. -/

/-- The normalized sinc function used by windowed-sinc FIR design. -/
noncomputable def sincFn (x : ℝ) : ℝ :=
  if x = 0 then 1 else Real.sin (Real.pi * x) / (Real.pi * x)

/-- The 4-term Blackman-Harris window of length `numtaps` at index `n`. -/
noncomputable def blackmanharrisAt (numtaps n : Nat) : ℝ :=
  0.35875 - 0.48829 * Real.cos (2 * Real.pi * n / (numtaps - 1 : Nat))
    + 0.14128 * Real.cos (4 * Real.pi * n / (numtaps - 1 : Nat))
    - 0.01168 * Real.cos (6 * Real.pi * n / (numtaps - 1 : Nat))

/-- Unnormalized windowed-sinc lowpass coefficients of
`scipy.signal.firwin`, one per tap. -/
noncomputable def firwinRaw (numtaps : Nat) (cutoff fs : ℝ) : List ℝ :=
  (List.range numtaps).map (fun n =>
    let alpha : ℝ := ((numtaps : ℝ) - 1) / 2
    let f : ℝ := cutoff / (fs / 2)
    blackmanharrisAt numtaps n * (f * sincFn (f * ((n : ℝ) - alpha))))

/-- The call `firwin(numtaps, cutoff, window="blackmanharris",
pass_zero="lowpass", fs)`: windowed-sinc coefficients scaled to unit gain
at zero frequency. -/
noncomputable def firwin (numtaps : Nat) (cutoff fs : ℝ) : List ℝ :=
  let h := firwinRaw numtaps cutoff fs
  h.map (· / h.sum)

/-- The full discrete convolution `np.convolve(a, v)`, of length
`|a| + |v| - 1`. -/
noncomputable def convolveFull (a v : List ℝ) : List ℝ :=
  (List.range (a.length + v.length - 1)).map (fun k =>
    ∑ j ∈ Finset.range (k + 1), a.getD j 0 * v.getD (k - j) 0)

/-- The call `np.convolve(a, v, "same")`: the central `max |a| |v|` entries of the
full convolution, starting at offset `(min |a| |v| - 1) / 2`. -/
noncomputable def convolveSame (a v : List ℝ) : List ℝ :=
  ((convolveFull a v).drop ((min a.length v.length - 1) / 2)).take
    (max a.length v.length)

/-- modules/modulator/modulator.py, `Modulator.__lowpass` (and the public
`lowpass` that applies it to the current signal): a FIR filter with
`numtaps = len(signal)` at cutoff `CUTOFF` for sample rate `FRAME_RATE`,
convolved with the signal in "same" mode. -/
noncomputable def Modulator.lowpass (signal : List ℝ) : List ℝ :=
  convolveSame signal (firwin signal.length CUTOFF FRAME_RATE)

/-! ## Socket layer state (modules/socket/node.py, client.py, server.py)

Python socket objects are not modelled as OS resources: the per-`Node`
socket attribute is `Option Unit` (None vs. a live socket), accepted client
sockets are identified by a `ClientId`, and the network is an explicit
environment -- a script of incoming packages (`recv` reads the head; an
exhausted script reads as the empty package, which is exactly the Python
`recv` result on a gracefully closed peer) and, for `send`, a list of byte
counts the kernel accepts on successive low-level send calls.  Socket
operations performed by a call are reported as an explicit `SEvent` trace. -/

/-- Identifier standing for an accepted client socket object. -/
abbrev ClientId := Nat

/-- A socket operation performed on a client socket. -/
inductive SEvent where
  | accept (c : ClientId)
  | recv (c : ClientId) (s : String)
  | send (c : ClientId) (s : String)
  | close (c : ClientId)
deriving DecidableEq, Repr

/-- One entry of `Server.__clients`: a Python dict that starts as
holding only the color and gains the name and modulation keys during the
handshake; absent keys are `none`. -/
structure ClientRecord where
  color : Option String := none
  name : Option String := none
  modulation : Option String := none
deriving DecidableEq, Repr

/-- Registry keyed by client socket, in insertion order (a Python dict). -/
abbrev Registry := List (ClientId × ClientRecord)

/-- Python dict lookup `d[c]` (as an Option). -/
def dictLookup (c : ClientId) : Registry → Option ClientRecord
  | [] => none
  | (k, r) :: t => if k = c then some r else dictLookup c t

/-- Python dict assignment `d[c] = r`: updates an existing key in place,
otherwise appends. -/
def dictInsert (c : ClientId) (r : ClientRecord) : Registry → Registry
  | [] => [(c, r)]
  | (k, r') :: t =>
      if k = c then (k, r) :: t else (k, r') :: dictInsert c r t

/-- In-place update of one field of the record stored under `c`. -/
def dictUpdate (c : ClientId) (f : ClientRecord → ClientRecord) :
    Registry → Registry
  | [] => []
  | (k, r) :: t =>
      if k = c then (k, f r) :: t else (k, r) :: dictUpdate c f t

/-- Python dict deletion `del d[c]`. -/
def dictDelete (c : ClientId) : Registry → Registry
  | [] => []
  | (k, r) :: t => if k = c then t else (k, r) :: dictDelete c t

/-- State of a `Server` (modules/socket/server.py): the `Node` socket and
log attributes, the client registry, the round-robin color-cycle position
(`cycle(COLORS)` as a counter), the bound port and the listen backlog. -/
structure ServerState where
  sock : Option Unit := none
  clients : Option Registry := none
  logs : Option (List String) := none
  colorIdx : Nat := 0
  port : Option Int := none
  listening : Option Nat := none
deriving DecidableEq, Repr

/-- State of a `Client` (modules/socket/client.py): only the fields the
claims exercise (the `Node` socket attribute). -/
structure ClientState where
  sock : Option Unit := none
deriving DecidableEq, Repr

/-! ## Python socket send primitives

Per the Python socket documentation: `socket.send(data)` makes a single
attempt, transmits as many bytes as the kernel currently accepts (possibly
a strict prefix) and returns that count; `socket.sendall(data)` re-issues
low-level sends until every byte is transmitted.  The kernel behaviour
is the environment `env`: the byte counts accepted by successive low-level
send calls. -/

/-- Bytes delivered by one `socket.send` call: a single best-effort
attempt. -/
def pySendOnce (env : List Nat) (len : Nat) : Nat := min (env.headD 0) len

/-- Bytes delivered by `socket.sendall`: repeated sends until the buffer is
exhausted (or the environment offers no further capacity). -/
def pySendallDelivered : List Nat → Nat → Nat
  | [], _ => 0
  | cap :: env, n => min cap n + pySendallDelivered env (n - min cap n)

/-- The branch `sock.send(package) if ensure else sock.sendall(package)`
shared by `Client.send` and `Server.send`: the Python return value
(`send` returns the count of its one attempt, `sendall` returns None)
paired with the number of bytes actually delivered. -/
def pySendResult (ensure : Bool) (env : List Nat) (len : Nat) :
    Option Nat × Nat :=
  if ensure then (some (pySendOnce env len), pySendOnce env len)
  else (none, pySendallDelivered env len)

/-! ## Client and Server I/O helpers -/

/-- modules/socket/node.py, `Node.is_open`: the socket attribute is set. -/
def isOpenSock (sock : Option Unit) : Bool := sock.isSome

/-- modules/socket/client.py, `Client.recv`: `check_connection`, then
`self.get_socket().recv(PACKAGE_SIZE)` -- the head of the incoming script,
truncated to `PACKAGE_SIZE` bytes. -/
def Client.recv (st : ClientState) (script : List (List Nat)) :
    Except SocketError (List Nat) :=
  if isOpenSock st.sock then .ok ((script.headD []).take PACKAGE_SIZE)
  else .error .socketError

/-- modules/socket/client.py, `Client.send`: `check_connection`, then
`self.get_socket().send(package) if ensure else
self.get_socket().sendall(package)`. -/
def Client.send (st : ClientState) (package : List Nat) (ensure : Bool)
    (env : List Nat) : Except SocketError (Option Nat × Nat) :=
  if isOpenSock st.sock then .ok (pySendResult ensure env package.length)
  else .error .socketError

/-- Registry lookup through the optional client dict of the server. -/
def Server.lookupClient (st : ServerState) (c : ClientId) :
    Option ClientRecord :=
  dictLookup c (st.clients.getD [])

/-- modules/socket/server.py, `Server.recv`: directly
`client.recv(PACKAGE_SIZE)` -- no `check_connection` and no `check_client`
guard, so the server state is not consulted at all. -/
def Server.recv (_st : ServerState) (_client : ClientId)
    (script : List (List Nat)) : Except SocketError (List Nat) :=
  .ok ((script.headD []).take PACKAGE_SIZE)

/-- modules/socket/server.py, `Server.send`: `check_client` (which first
runs `check_connection`, then membership in the registry), then
`client.send(package) if ensure else client.sendall(package)`, converting
`BrokenPipeError/ConnectionResetError/OSError` (a reset peer, flagged by
`peerReset`) into `ClientDisconnectedError`. -/
def Server.send (st : ServerState) (client : ClientId) (package : List Nat)
    (ensure : Bool) (peerReset : Bool) (env : List Nat) :
    Except SocketError (Option Nat × Nat) :=
  if (isOpenSock st.sock) = false then .error .socketError
  else if (Server.lookupClient st client).isNone then .error .invalidClient
  else if peerReset then .error .clientDisconnected
  else .ok (pySendResult ensure env package.length)

/-! ## Server.connect (bind) -/

/-- The value of a non-empty all-digit character list, for `int(str)`. -/
def digitsToNat? (cs : List Char) : Option Nat :=
  if cs ≠ [] ∧ cs.all Char.isDigit then
    some (cs.foldl (fun acc c => 10 * acc + (c.toNat - 48)) 0)
  else none

/-- Python `int(port)` on the user-supplied port string: an optional minus
sign followed by decimal digits (whitespace stripping and other exotic
accepted forms are not exercised by the claims); `None` is a raised
`ValueError`. -/
def parsePort (s : String) : Option Int :=
  match s.data with
  | '-' :: rest => (digitsToNat? rest).map (fun n => -(n : Int))
  | cs => (digitsToNat? cs).map (fun n => (n : Int))

/-- modules/socket/server.py, `Server.connect`: substitutes `DEFAULT_PORT`
for a falsy (empty) port, runs `int(port)` (a `ValueError` is re-raised as
`InvalidPortError`), then `socket().bind((host, port))` -- CPython raises
`OverflowError` when the port is outside 0..65535 (re-raised as
`PortOutOfRangeError`) and `OSError` when the OS rejects the bind because
the port is in use (re-raised as `PortAlreadyUsedError`; the ports bound
by other listeners are the environment `inUse`).  On success it resets the
registry and log to empty, stores the port and socket, and listens with
backlog `BACKLOG_SIZE`. -/
def Server.connect (st : ServerState) (inUse : List Int) (_host : String)
    (port : String) : Except SocketError ServerState :=
  let port := if port = "" then toString DEFAULT_PORT else port
  match parsePort port with
  | none => .error .invalidPort
  | some p =>
      if p < 0 ∨ 65535 < p then .error .portOutOfRange
      else if p ∈ inUse then .error .portAlreadyUsed
      else .ok { st with
                   clients := some []
                   logs := some []
                   port := some p
                   sock := some ()
                   listening := some BACKLOG_SIZE }

/-! ## Server.hello (accept + handshake)

`hello` polls `select` on the listening socket at 100 ms intervals and
accepts once a connection is ready; readiness and the accepted socket are
the environment (the pending client `c`).  Received strings come from the
incoming script.  The body is split into named steps so that the registry
state between the socket operations is an explicit term. -/

/-- The step `color = next(self.__client_colors)`: the cycle over `COLORS` read at
the current position. -/
def Server.nextColor (st : ServerState) : String :=
  COLORS.getD (st.colorIdx % COLORS.length) ""

/-- The step assigning the singleton color dict to the new registry key
(plus the cycle advance):
the registry state right after the accept, before any handshake
message. -/
def Server.helloInsertColor (st : ServerState) (c : ClientId) : ServerState :=
  { st with
      colorIdx := st.colorIdx + 1
      clients := some (dictInsert c { color := some (Server.nextColor st) }
        (st.clients.getD [])) }

/-- The step storing the received name into the client registry entry. -/
def Server.helloSetName (st : ServerState) (c : ClientId) (name : String) :
    ServerState :=
  { st with
      clients := some (dictUpdate c (fun r => { r with name := some name })
        (st.clients.getD [])) }

/-- The step storing the received modulation type into the client registry
entry. -/
def Server.helloSetModulation (st : ServerState) (c : ClientId)
    (modu : String) : ServerState :=
  { st with
      clients := some (dictUpdate c
        (fun r => { r with modulation := some modu }) (st.clients.getD [])) }

/-- modules/socket/server.py, `Server.hello`: `check_connection`; accept the
pending client; pick the next palette color and store the partial record;
receive the name; send back the color; receive the modulation type; return
the client.  The result carries the new state, the returned client, the
trace of socket operations, and the unread remainder of the incoming
script. -/
def Server.hello (st : ServerState) (c : ClientId) (script : List String) :
    Except SocketError (ServerState × ClientId × List SEvent × List String) :=
  if (isOpenSock st.sock) = false then .error .socketError
  else
    let color := Server.nextColor st
    let st1 := Server.helloInsertColor st c
    let name := script.headD ""
    let st2 := Server.helloSetName st1 c name
    let modu := script.tail.headD ""
    let st3 := Server.helloSetModulation st2 c modu
    .ok (st3, c,
      [SEvent.accept c, SEvent.recv c name, SEvent.send c color,
       SEvent.recv c modu],
      script.tail.tail)

/-- modules/socket/server.py, `Server.bye`: `check_client` (connection
check, then registry membership), `client.close()`, and
`del self.__clients[client]`. -/
def Server.bye (st : ServerState) (c : ClientId) :
    Except SocketError (ServerState × List SEvent) :=
  if (isOpenSock st.sock) = false then .error .socketError
  else if (Server.lookupClient st c).isNone then .error .invalidClient
  else .ok ({ st with clients := some (dictDelete c (st.clients.getD [])) },
    [SEvent.close c])

/-! ## Helper lemmas -/

theorem am_carrier_length (n : Nat) : (Modulator.am_carrier n).length = n := by
  rw [Modulator.am_carrier, List.length_map, List.length_range]

theorem am_carrier_getElem? (n i : Nat) (h : i < n) :
    (Modulator.am_carrier n)[i]? =
      some (Real.cos (2 * Real.pi * i * AM_CARRIER_FREQ)) := by
  rw [Modulator.am_carrier, List.getElem?_map, List.getElem?_range h]
  rfl

theorem cos_two_pi_int_freq (t : Nat) :
    Real.cos (2 * Real.pi * t * AM_CARRIER_FREQ) = 1 := by
  have h : 2 * Real.pi * t * AM_CARRIER_FREQ =
      ((3000 * t : Nat) : ℝ) * (2 * Real.pi) := by
    push_cast [AM_CARRIER_FREQ]
    ring
  rw [h, Real.cos_nat_mul_two_pi]

theorem am_carrier_eq_replicate (n : Nat) :
    Modulator.am_carrier n = List.replicate n 1 := by
  refine List.eq_replicate_iff.2 ⟨am_carrier_length n, ?_⟩
  intro b hb
  rw [Modulator.am_carrier, List.mem_map] at hb
  obtain ⟨t, -, rfl⟩ := hb
  exact cos_two_pi_int_freq t

theorem zipWith_mul_replicate_one (s : List ℝ) :
    s.zipWith (· * ·) (List.replicate s.length 1) = s := by
  induction s with
  | nil => rfl
  | cons a t ih => simp [List.replicate_succ, ih]

theorem zipWith_add_replicate_one (s : List ℝ) :
    s.zipWith (· + ·) (List.replicate s.length 1) = s.map (· + 1) := by
  induction s with
  | nil => rfl
  | cons a t ih => simp [List.replicate_succ, ih]

theorem modulate_length (m : String) (s : List ℝ) :
    (Modulator.modulate m s).length = s.length := by
  unfold Modulator.modulate
  split
  · simp [List.length_zipWith, am_carrier_length]
  · split
    · simp [List.length_zipWith, am_carrier_length]
    · rfl

theorem demodulate_length (m : String) (s : List ℝ) :
    (Modulator.demodulate m s).length = s.length := by
  unfold Modulator.demodulate
  split
  · simp
  · split
    · simp [List.length_zipWith, am_carrier_length]
    · rfl

theorem encode_length (s : List ℝ) :
    (Modulator.encode s).length = 2 * s.length := by
  induction s with
  | nil => rfl
  | cons a t ih =>
      simp only [Modulator.encode, List.map_cons, List.flatten_cons,
        List.length_append, List.length_cons] at ih ⊢
      simp [int16ToBytes] at ih ⊢
      omega

theorem firwin_length (n : Nat) (c f : ℝ) : (firwin n c f).length = n := by
  simp [firwin, firwinRaw]

theorem convolveFull_length (a v : List ℝ) :
    (convolveFull a v).length = a.length + v.length - 1 := by
  simp [convolveFull]

theorem lowpass_length (s : List ℝ) (h : 1 ≤ s.length) :
    (Modulator.lowpass s).length = s.length := by
  simp only [Modulator.lowpass, convolveSame, List.length_take,
    List.length_drop, convolveFull_length, firwin_length]
  omega

theorem dictLookup_cons (c k : ClientId) (r : ClientRecord) (t : Registry) :
    dictLookup c ((k, r) :: t) = if k = c then some r else dictLookup c t := rfl

theorem dictInsert_cons (c k : ClientId) (r r' : ClientRecord) (t : Registry) :
    dictInsert c r ((k, r') :: t) =
      if k = c then (k, r) :: t else (k, r') :: dictInsert c r t := rfl

theorem dictUpdate_cons (c k : ClientId) (f : ClientRecord → ClientRecord)
    (r : ClientRecord) (t : Registry) :
    dictUpdate c f ((k, r) :: t) =
      if k = c then (k, f r) :: t else (k, r) :: dictUpdate c f t := rfl

theorem dictDelete_cons (c k : ClientId) (r : ClientRecord) (t : Registry) :
    dictDelete c ((k, r) :: t) =
      if k = c then t else (k, r) :: dictDelete c t := rfl

theorem dictLookup_dictInsert_self (c : ClientId) (r : ClientRecord)
    (d : Registry) : dictLookup c (dictInsert c r d) = some r := by
  induction d with
  | nil => simp [dictInsert, dictLookup]
  | cons p t ih =>
      obtain ⟨k, r'⟩ := p
      rw [dictInsert_cons]
      by_cases hk : k = c
      · rw [if_pos hk, dictLookup_cons, if_pos hk]
      · rw [if_neg hk, dictLookup_cons, if_neg hk]
        exact ih

theorem dictLookup_dictUpdate_self (c : ClientId)
    (f : ClientRecord → ClientRecord) (d : Registry) :
    dictLookup c (dictUpdate c f d) = (dictLookup c d).map f := by
  induction d with
  | nil => rfl
  | cons p t ih =>
      obtain ⟨k, r'⟩ := p
      rw [dictUpdate_cons]
      by_cases hk : k = c
      · rw [if_pos hk, dictLookup_cons, if_pos hk, dictLookup_cons, if_pos hk]
        rfl
      · rw [if_neg hk, dictLookup_cons, if_neg hk, dictLookup_cons, if_neg hk]
        exact ih

theorem dictLookup_eq_none_of_not_mem (c : ClientId) (d : Registry)
    (h : c ∉ d.map Prod.fst) : dictLookup c d = none := by
  induction d with
  | nil => rfl
  | cons p t ih =>
      obtain ⟨k, r⟩ := p
      simp only [List.map_cons, List.mem_cons, not_or] at h
      rw [dictLookup_cons, if_neg (fun hk => h.1 hk.symm)]
      exact ih h.2

theorem dictLookup_dictDelete_self (c : ClientId) (d : Registry)
    (h : (d.map Prod.fst).Nodup) : dictLookup c (dictDelete c d) = none := by
  induction d with
  | nil => rfl
  | cons p t ih =>
      obtain ⟨k, r⟩ := p
      simp only [List.map_cons, List.nodup_cons] at h
      rw [dictDelete_cons]
      by_cases hk : k = c
      · rw [if_pos hk]
        subst hk
        exact dictLookup_eq_none_of_not_mem k t h.1
      · rw [if_neg hk, dictLookup_cons, if_neg hk]
        exact ih h.2

theorem dictLookup_dictDelete_ne (c c' : ClientId) (d : Registry)
    (h : c' ≠ c) : dictLookup c' (dictDelete c d) = dictLookup c' d := by
  induction d with
  | nil => rfl
  | cons p t ih =>
      obtain ⟨k, r⟩ := p
      rw [dictDelete_cons]
      by_cases hk : k = c
      · rw [if_pos hk, dictLookup_cons, if_neg (fun hk' => h (hk'.symm.trans hk))]
      · rw [if_neg hk, dictLookup_cons, dictLookup_cons]
        by_cases hk' : k = c'
        · rw [if_pos hk', if_pos hk']
        · rw [if_neg hk', if_neg hk']
          exact ih

theorem mem_keys_dictInsert (a c : ClientId) (r : ClientRecord)
    (d : Registry) :
    a ∈ (dictInsert c r d).map Prod.fst ↔ a = c ∨ a ∈ d.map Prod.fst := by
  induction d with
  | nil => simp [dictInsert]
  | cons p t ih =>
      obtain ⟨k, r'⟩ := p
      rw [dictInsert_cons]
      by_cases hk : k = c
      · subst hk
        rw [if_pos rfl]
        simp only [List.map_cons, List.mem_cons]
        tauto
      · rw [if_neg hk]
        simp only [List.map_cons, List.mem_cons, ih]
        tauto

theorem keys_dictInsert_nodup (c : ClientId) (r : ClientRecord) (d : Registry)
    (h : (d.map Prod.fst).Nodup) :
    ((dictInsert c r d).map Prod.fst).Nodup := by
  induction d with
  | nil => simp [dictInsert]
  | cons p t ih =>
      obtain ⟨k, r'⟩ := p
      simp only [List.map_cons, List.nodup_cons] at h
      rw [dictInsert_cons]
      by_cases hk : k = c
      · rw [if_pos hk]
        simp only [List.map_cons, List.nodup_cons]
        exact h
      · rw [if_neg hk]
        simp only [List.map_cons, List.nodup_cons]
        refine ⟨?_, ih h.2⟩
        rw [mem_keys_dictInsert]
        push_neg
        exact ⟨hk, h.1⟩

theorem keys_dictUpdate (c : ClientId) (f : ClientRecord → ClientRecord)
    (d : Registry) : (dictUpdate c f d).map Prod.fst = d.map Prod.fst := by
  induction d with
  | nil => rfl
  | cons p t ih =>
      obtain ⟨k, r⟩ := p
      rw [dictUpdate_cons]
      by_cases hk : k = c
      · rw [if_pos hk]
        simp
      · rw [if_neg hk]
        simp only [List.map_cons, ih]

/-! ### Int16 codec lemmas -/

theorem truncToInt_intCast (n : Int) : truncToInt (n : ℝ) = n := by
  unfold truncToInt
  split
  · exact Int.floor_intCast n
  · exact Int.ceil_intCast n

theorem wrapInt16_eq_self (v : Int) (h1 : -32768 ≤ v) (h2 : v ≤ 32767) :
    wrapInt16 v = v := by
  unfold wrapInt16
  omega

theorem toInt16_intCast (v : Int) (h1 : -32768 ≤ v) (h2 : v ≤ 32767) :
    toInt16 (v : ℝ) = v := by
  rw [toInt16, truncToInt_intCast, wrapInt16_eq_self v h1 h2]

theorem bytesToInt16_int16ToBytes (v : Int) (rest : List Nat)
    (h1 : -32768 ≤ v) (h2 : v ≤ 32767) :
    bytesToInt16 (int16ToBytes v ++ rest) = v :: bytesToInt16 rest := by
  have hmod : ((v % 65536).toNat : Int) = v % 65536 :=
    Int.toNat_of_nonneg (Int.emod_nonneg _ (by norm_num))
  simp only [int16ToBytes, List.cons_append, List.nil_append, bytesToInt16]
  have hsplit : (v % 65536).toNat % 256 + 256 * ((v % 65536).toNat / 256) =
      (v % 65536).toNat := Nat.mod_add_div _ 256
  rw [hsplit]
  congr 1
  split
  · rename_i hlt
    omega
  · rename_i hge
    omega

/-! ## Claim theorems -/

/-- C1: evaluation of the code at the failing input.  The claim states that
`ensure=true` retries until the full buffer is written and `ensure=false`
is one best-effort attempt; the code has the two branches swapped
(`sock.send(package) if ensure else sock.sendall(package)`): on an open
session, for a 2-byte package with the kernel accepting 1 byte per
low-level call, `ensure=true` performs the single-attempt `send`,
delivering only 1 of the 2 bytes and reporting success, while
`ensure=false` performs the retrying `sendall`, delivering all 2 bytes.
The same holds for `Server.send`. -/
theorem C1_ensure_branches_swapped_eval :
    Client.send { sock := some () } [9, 9] true [1] = .ok (some 1, 1)
  ∧ Client.send { sock := some () } [9, 9] false [1, 1] = .ok (none, 2)
  ∧ Server.send
      { sock := some (), clients := some [(1, { color := some RED })],
        logs := some [], colorIdx := 1, port := some 33000,
        listening := some 10 } 1 [9, 9] true false [1] = .ok (some 1, 1)
  ∧ Server.send
      { sock := some (), clients := some [(1, { color := some RED })],
        logs := some [], colorIdx := 1, port := some 33000,
        listening := some 10 } 1 [9, 9] false false [1, 1] = .ok (none, 2)
  ∧ ([9, 9] : List Nat).length = 2 := by
  refine ⟨rfl, rfl, rfl, rfl, rfl⟩

/-- C9: evaluated at integer sample indices, the carrier
`cos(2*pi*3000*t)` is exactly 1 in real arithmetic, so AM-SC modulation
and demodulation are the identity and AM modulation maps each sample `s`
to `(s + 1) / 2`. -/
theorem C9_carrier_is_one_identities :
    (∀ t : Nat, Real.cos (2 * Real.pi * 3000 * t) = 1)
  ∧ ∀ s : List ℝ,
      Modulator.modulate AM_SC s = s
    ∧ Modulator.demodulate AM_SC s = s
    ∧ Modulator.modulate AM s = s.map (fun x => (x + 1) / 2) := by
  constructor
  · intro t
    have h := cos_two_pi_int_freq t
    rw [show (2 * Real.pi * 3000 * (t : ℝ)) =
        2 * Real.pi * t * AM_CARRIER_FREQ from by
      simp only [AM_CARRIER_FREQ]; ring]
    exact h
  · intro s
    refine ⟨?_, ?_, ?_⟩
    · rw [Modulator.modulate, if_neg (by decide : ¬(AM_SC = AM)),
        if_pos rfl, am_carrier_eq_replicate, zipWith_mul_replicate_one]
    · rw [Modulator.demodulate, if_neg (by decide : ¬(AM_SC = AM)),
        if_pos rfl, am_carrier_eq_replicate, zipWith_mul_replicate_one]
    · simp only [Modulator.modulate, if_pos rfl]
      rw [am_carrier_eq_replicate, zipWith_mul_replicate_one,
        zipWith_add_replicate_one, List.map_map]
      rfl

/-- C8: for any int16-valued sample sequence, rebuilding the signal from
the byte buffer produced by `Modulator.encode` (as `Modulator.__set_signal`
does via `np.frombuffer(..., np.int16)`) recovers exactly the original
samples; under NONE modulation no transform intervenes, so this is the
claimed `decode(encode(x)) == x`. -/
theorem C8_decode_encode_roundtrip (x : List Int)
    (h : ∀ v ∈ x, -32768 ≤ v ∧ v ≤ 32767) :
    Modulator.signalOfBytes (Modulator.encode (x.map (fun v : Int => (v : ℝ)))) =
      x := by
  induction x with
  | nil => rfl
  | cons v t ih =>
      have hv := h v (by simp)
      have ht : ∀ w ∈ t, -32768 ≤ w ∧ w ≤ 32767 := fun w hw =>
        h w (List.mem_cons_of_mem v hw)
      simp only [List.map_cons, Modulator.encode, List.flatten_cons,
        Modulator.signalOfBytes] at ih ⊢
      rw [toInt16_intCast v hv.1 hv.2, bytesToInt16_int16ToBytes v _ hv.1 hv.2,
        ih ht]

/-- Witness for C8 at a concrete in-range int16 sequence. -/
theorem C8_decode_encode_roundtrip_witness :
    (∀ v ∈ ([0, 1, -1, 32767, -32768] : List Int),
        -32768 ≤ v ∧ v ≤ 32767)
  ∧ Modulator.signalOfBytes
      (Modulator.encode
        (([0, 1, -1, 32767, -32768] : List Int).map (fun v : Int => (v : ℝ)))) =
      [0, 1, -1, 32767, -32768] :=
  ⟨by decide, C8_decode_encode_roundtrip [0, 1, -1, 32767, -32768] (by decide)⟩

/-- C7 counterexample: on a closed server session (socket attribute unset),
`Server.recv` does not raise `SocketError` -- it performs the read on the
client socket and returns the data, because the source body is just
`client.recv(PACKAGE_SIZE)` with no `check_connection` guard.  This
refutes the claim that each of the four helpers raises `SocketError`
while the session is closed. -/
theorem C7_server_recv_unguarded_counterexample :
    Server.recv
      { sock := none, clients := none, logs := none, colorIdx := 0,
        port := none, listening := none } 1 [[5]] = .ok [5]
  ∧ Server.recv
      { sock := none, clients := none, logs := none, colorIdx := 0,
        port := none, listening := none } 1 [[5]] ≠
        .error SocketError.socketError := by
  refine ⟨rfl, ?_⟩
  intro h
  exact Except.noConfusion h

/-- C7 amended: on a closed session, `Client.recv`, `Client.send` and
`Server.send` raise `SocketError` and perform no I/O, but `Server.recv`
is unguarded: it reads from the client socket regardless of the server's
session state. -/
theorem C7_closed_session_guards (stc : ClientState) (sts : ServerState)
    (c : ClientId) (package : List Nat) (ensure pr : Bool) (env : List Nat)
    (script : List (List Nat)) (hc : stc.sock = none) (hs : sts.sock = none) :
    Client.recv stc script = .error .socketError
  ∧ Client.send stc package ensure env = .error .socketError
  ∧ Server.send sts c package ensure pr env = .error .socketError
  ∧ Server.recv sts c script = .ok ((script.headD []).take PACKAGE_SIZE) := by
  refine ⟨?_, ?_, ?_, rfl⟩
  · simp [Client.recv, isOpenSock, hc]
  · simp [Client.send, isOpenSock, hc]
  · simp [Server.send, isOpenSock, hs]

/-- Witness for C7 at concrete closed client and server states. -/
theorem C7_closed_session_guards_witness :
    (({ sock := none } : ClientState).sock = none
      ∧ ({ sock := none, clients := none, logs := none, colorIdx := 0,
            port := none, listening := none } : ServerState).sock = none)
  ∧ Client.recv { sock := none } [[5]] = .error .socketError
  ∧ Client.send { sock := none } [9] true [4] = .error .socketError
  ∧ Server.send
      { sock := none, clients := none, logs := none, colorIdx := 0,
        port := none, listening := none } 1 [9] true false [4] =
      .error .socketError
  ∧ Server.recv
      { sock := none, clients := none, logs := none, colorIdx := 0,
        port := none, listening := none } 1 [[5]] =
      .ok (([5] : List Nat).take PACKAGE_SIZE) :=
  ⟨⟨rfl, rfl⟩,
    C7_closed_session_guards { sock := none }
      { sock := none, clients := none, logs := none, colorIdx := 0,
        port := none, listening := none } 1 [9] true false [4] [[5]] rfl rfl⟩

/-- C3: for any chunk of length at least 1 and any valid modulation type,
`modulate`, `demodulate` and `lowpass` return exactly as many samples as
they receive, and `encode` returns exactly 2 bytes (one 16-bit value) per
input sample; `lowpass` builds its FIR filter with tap count equal to the
chunk length and convolves in "same" mode, which keeps the length. -/
theorem C3_transforms_preserve_length (m : String)
    (hm : m ∈ Modulator.modulations) (s : List ℝ) (hs : 1 ≤ s.length) :
    (Modulator.modulate m s).length = s.length
  ∧ (Modulator.demodulate m s).length = s.length
  ∧ (Modulator.lowpass s).length = s.length
  ∧ (Modulator.encode s).length = 2 * s.length :=
  ⟨modulate_length m s, demodulate_length m s, lowpass_length s hs,
    encode_length s⟩

/-- Witness for C3 at modulation "am" and a 2-sample chunk. -/
theorem C3_transforms_preserve_length_witness :
    (AM ∈ Modulator.modulations ∧ 1 ≤ ([1, 2] : List ℝ).length)
  ∧ (Modulator.modulate AM [1, 2]).length = ([1, 2] : List ℝ).length
  ∧ (Modulator.demodulate AM [1, 2]).length = ([1, 2] : List ℝ).length
  ∧ (Modulator.lowpass [1, 2]).length = ([1, 2] : List ℝ).length
  ∧ (Modulator.encode [1, 2]).length = 2 * ([1, 2] : List ℝ).length :=
  ⟨⟨by decide, by simp⟩,
    C3_transforms_preserve_length AM (by decide) [1, 2] (by simp)⟩

/-- C2: per-sample formulas of the transforms, with the carrier
`c[t] = cos(2*pi*3000*t)` at the sample index `t` within the chunk:
AM modulate gives `(s*c + c)/2`, AM-SC modulate gives `s*c`, NONE leaves
the signal unchanged; AM demodulate gives `|s|` and AM-SC demodulate
multiplies by the same independently regenerated carrier. -/
theorem C2_modulate_demodulate_formulas (s : List ℝ) (hs : s ≠ []) (i : Nat)
    (hi : i < s.length) :
    (Modulator.modulate AM s)[i]? =
      some ((s[i] * Real.cos (2 * Real.pi * 3000 * i)
        + Real.cos (2 * Real.pi * 3000 * i)) / 2)
  ∧ (Modulator.modulate AM_SC s)[i]? =
      some (s[i] * Real.cos (2 * Real.pi * 3000 * i))
  ∧ Modulator.modulate NO_MOD s = s
  ∧ (Modulator.demodulate AM s)[i]? = some |s[i]|
  ∧ (Modulator.demodulate AM_SC s)[i]? =
      some (s[i] * Real.cos (2 * Real.pi * 3000 * i)) := by
  have hcos : Real.cos (2 * Real.pi * i * AM_CARRIER_FREQ) =
      Real.cos (2 * Real.pi * 3000 * i) := by
    simp only [AM_CARRIER_FREQ]
    ring_nf
  refine ⟨?_, ?_, ?_, ?_, ?_⟩
  · rw [Modulator.modulate, if_pos (rfl : AM = AM), List.getElem?_map,
      List.getElem?_zipWith, List.getElem?_zipWith,
      List.getElem?_eq_getElem hi, am_carrier_getElem? s.length i hi, hcos]
    rfl
  · rw [Modulator.modulate, if_neg (by decide : ¬(AM_SC = AM)), if_pos rfl,
      List.getElem?_zipWith, List.getElem?_eq_getElem hi,
      am_carrier_getElem? s.length i hi, hcos]
  · rw [Modulator.modulate, if_neg (by decide : ¬(NO_MOD = AM)),
      if_neg (by decide : ¬(NO_MOD = AM_SC))]
  · rw [Modulator.demodulate, if_pos (rfl : AM = AM), List.getElem?_map,
      List.getElem?_eq_getElem hi]
    rfl
  · rw [Modulator.demodulate, if_neg (by decide : ¬(AM_SC = AM)), if_pos rfl,
      List.getElem?_zipWith, List.getElem?_eq_getElem hi,
      am_carrier_getElem? s.length i hi, hcos]

/-- Witness for C2 at the 1-sample chunk `[5]` and index 0. -/
theorem C2_modulate_demodulate_formulas_witness :
    (([5] : List ℝ) ≠ [] ∧ 0 < ([5] : List ℝ).length)
  ∧ ((Modulator.modulate AM [5])[0]? =
      some ((([5] : List ℝ)[0] * Real.cos (2 * Real.pi * 3000 * (0 : Nat))
        + Real.cos (2 * Real.pi * 3000 * (0 : Nat))) / 2)
  ∧ (Modulator.modulate AM_SC [5])[0]? =
      some (([5] : List ℝ)[0] * Real.cos (2 * Real.pi * 3000 * (0 : Nat)))
  ∧ Modulator.modulate NO_MOD [5] = [5]
  ∧ (Modulator.demodulate AM [5])[0]? = some |([5] : List ℝ)[0]|
  ∧ (Modulator.demodulate AM_SC [5])[0]? =
      some (([5] : List ℝ)[0] * Real.cos (2 * Real.pi * 3000 * (0 : Nat)))) :=
  ⟨⟨by simp, by simp⟩,
    C2_modulate_demodulate_formulas [5] (by simp) 0 (by simp)⟩

/-- C6: `Server.connect` maps failures as claimed -- an unparseable port
such as "abc" raises `InvalidPortError`, a port overflowing the 16-bit
range such as 70000 raises `PortOutOfRangeError`, a port already bound by
another listener raises `PortAlreadyUsedError` -- and on success
initializes an empty client registry and an empty log and listens with
backlog `BACKLOG_SIZE = 10`. -/
theorem C6_connect_error_mapping (st : ServerState) (inUse : List Int)
    (host : String) :
    Server.connect st inUse host "abc" = .error .invalidPort
  ∧ Server.connect st inUse host "70000" = .error .portOutOfRange
  ∧ (∀ port p, parsePort port = some p → 0 ≤ p → p ≤ 65535 → p ∈ inUse →
      Server.connect st inUse host port = .error .portAlreadyUsed)
  ∧ (∀ port p, parsePort port = some p → 0 ≤ p → p ≤ 65535 → p ∉ inUse →
      Server.connect st inUse host port =
        .ok { st with clients := some [], logs := some [],
                      port := some p, sock := some (),
                      listening := some BACKLOG_SIZE }) := by
  refine ⟨rfl, rfl, ?_, ?_⟩
  · intro port p hp h0 h65 hmem
    by_cases hpe : port = ""
    · subst hpe
      simp [parsePort, digitsToNat?] at hp
    · simp only [Server.connect, if_neg hpe]
      rw [hp]
      dsimp only
      rw [if_neg (by omega : ¬(p < 0 ∨ 65535 < p)), if_pos hmem]
  · intro port p hp h0 h65 hmem
    by_cases hpe : port = ""
    · subst hpe
      simp [parsePort, digitsToNat?] at hp
    · simp only [Server.connect, if_neg hpe]
      rw [hp]
      dsimp only
      rw [if_neg (by omega : ¬(p < 0 ∨ 65535 < p)), if_neg hmem]

/-- Witness for C6 with the OS environment holding port 33000 in use. -/
theorem C6_connect_error_mapping_witness :
    Server.connect
      { sock := none, clients := none, logs := none, colorIdx := 0,
        port := none, listening := none } [33000] "" "abc" =
      .error .invalidPort
  ∧ Server.connect
      { sock := none, clients := none, logs := none, colorIdx := 0,
        port := none, listening := none } [33000] "" "70000" =
      .error .portOutOfRange
  ∧ (parsePort "33000" = some 33000 ∧ (33000 : Int) ∈ [(33000 : Int)]
      ∧ Server.connect
          { sock := none, clients := none, logs := none, colorIdx := 0,
            port := none, listening := none } [33000] "" "33000" =
          .error .portAlreadyUsed)
  ∧ (parsePort "4000" = some 4000 ∧ (4000 : Int) ∉ [(33000 : Int)]
      ∧ Server.connect
          { sock := none, clients := none, logs := none, colorIdx := 0,
            port := none, listening := none } [33000] "" "4000" =
          .ok { sock := some (), clients := some [], logs := some [],
                colorIdx := 0, port := some 4000,
                listening := some BACKLOG_SIZE }) := by
  have h := C6_connect_error_mapping
    { sock := none, clients := none, logs := none, colorIdx := 0,
      port := none, listening := none } [33000] ""
  refine ⟨h.1, h.2.1, ⟨by decide, by decide, ?_⟩, ⟨by decide, by decide, ?_⟩⟩
  · exact h.2.2.1 "33000" 33000 (by decide) (by decide) (by decide) (by decide)
  · exact h.2.2.2 "4000" 4000 (by decide) (by decide) (by decide) (by decide)

/-! ### Handshake helper lemmas -/

theorem isOpenSock_some : isOpenSock (some ()) = true := rfl

theorem hello_run_spec (st : ServerState) (c : ClientId) (name modu : String)
    (rest : List String) (h : st.sock = some ()) :
    Server.hello st c (name :: modu :: rest) =
      .ok (Server.helloSetModulation
            (Server.helloSetName (Server.helloInsertColor st c) c name) c modu,
        c,
        [SEvent.accept c, SEvent.recv c name,
         SEvent.send c (Server.nextColor st), SEvent.recv c modu], rest) := by
  rw [Server.hello, h, isOpenSock_some,
    if_neg (by decide : ¬(true = false))]
  rfl

theorem lookup_after_insert_color (st : ServerState) (c : ClientId) :
    Server.lookupClient (Server.helloInsertColor st c) c =
      some { color := some (Server.nextColor st), name := none,
             modulation := none } := by
  simp only [Server.lookupClient, Server.helloInsertColor, Option.getD_some]
  rw [dictLookup_dictInsert_self]

theorem lookup_after_handshake (st : ServerState) (c : ClientId)
    (name modu : String) :
    Server.lookupClient
      (Server.helloSetModulation
        (Server.helloSetName (Server.helloInsertColor st c) c name) c modu)
      c =
      some { color := some (Server.nextColor st), name := some name,
             modulation := some modu } := by
  simp only [Server.lookupClient, Server.helloSetModulation,
    Server.helloSetName, Server.helloInsertColor, Option.getD_some]
  rw [dictLookup_dictUpdate_self, dictLookup_dictUpdate_self,
    dictLookup_dictInsert_self]
  rfl

theorem keys_after_handshake_nodup (st : ServerState) (c : ClientId)
    (name modu : String)
    (hnd : ((st.clients.getD []).map Prod.fst).Nodup) :
    (((Server.helloSetModulation
        (Server.helloSetName (Server.helloInsertColor st c) c name) c
        modu).clients.getD []).map Prod.fst).Nodup := by
  simp only [Server.helloSetModulation, Server.helloSetName,
    Server.helloInsertColor, Option.getD_some]
  rw [keys_dictUpdate, keys_dictUpdate]
  exact keys_dictInsert_nodup c _ _ hnd

theorem sock_after_handshake (st : ServerState) (c : ClientId)
    (name modu : String) :
    (Server.helloSetModulation
      (Server.helloSetName (Server.helloInsertColor st c) c name) c
      modu).sock = st.sock := rfl

theorem bye_spec (st : ServerState) (c : ClientId)
    (hopen : st.sock = some ()) (hmem : (Server.lookupClient st c).isSome) :
    Server.bye st c =
      .ok ({ st with clients := some (dictDelete c (st.clients.getD [])) },
        [SEvent.close c]) := by
  obtain ⟨r, hr⟩ := Option.isSome_iff_exists.1 hmem
  rw [Server.bye, hopen, isOpenSock_some,
    if_neg (by decide : ¬(true = false)), hr,
    if_neg (by simp : ¬((some r : Option ClientRecord).isNone = true))]

/-- C4 counterexample: `Server.hello` on an open server, with the incoming
script holding the client name, the modulation type and then the "OK"
acknowledgment, returns after receiving the modulation type: its socket
trace is accept / recv name / send color / recv modulation, the "OK"
message is still unread in the leftover script, and no step of the trace
received "OK".  This refutes the claim that `hello` receives the "OK"
acknowledgment before returning (the source receives "OK" in
`handle_client`, on the per-client thread, after `hello` has returned). -/
theorem C4_hello_returns_before_ok_counterexample :
    Server.hello
      { sock := some (), clients := some [], logs := some [], colorIdx := 0,
        port := some 33000, listening := some 10 } 7 ["alice", "am", "OK"] =
      .ok ({ sock := some (),
             clients := some [(7, { color := some RED, name := some "alice",
                                    modulation := some "am" })],
             logs := some [], colorIdx := 1, port := some 33000,
             listening := some 10 }, 7,
        [SEvent.accept 7, SEvent.recv 7 "alice", SEvent.send 7 RED,
         SEvent.recv 7 "am"], ["OK"])
  ∧ SEvent.recv 7 "OK" ∉
      [SEvent.accept 7, SEvent.recv 7 "alice", SEvent.send 7 RED,
       SEvent.recv 7 "am"] :=
  ⟨rfl, by decide⟩

/-- C4 amended: `Server.hello` completes the handshake only up to the
modulation type before returning the client handle: after accepting the
ready connection and assigning the next palette color, it receives the
name, sends the color and receives the modulation type, and then returns
with the registry entry complete, without receiving the "OK"
acknowledgment (which the per-client handler receives after `hello`
returns). -/
theorem C4_hello_handshake_up_to_modulation (st : ServerState) (c : ClientId)
    (name modu : String) (rest : List String) (h : st.sock = some ()) :
    ∃ st', Server.hello st c (name :: modu :: rest) =
        .ok (st', c,
          [SEvent.accept c, SEvent.recv c name,
           SEvent.send c (Server.nextColor st), SEvent.recv c modu], rest)
      ∧ Server.lookupClient st' c =
          some { color := some (Server.nextColor st), name := some name,
                 modulation := some modu } :=
  ⟨Server.helloSetModulation
      (Server.helloSetName (Server.helloInsertColor st c) c name) c modu,
    hello_run_spec st c name modu rest h,
    lookup_after_handshake st c name modu⟩

/-- Witness for the amended C4 on an open concrete server. -/
theorem C4_hello_handshake_up_to_modulation_witness :
    ({ sock := some (), clients := some [], logs := some [], colorIdx := 0,
        port := some 33000, listening := some 10 } : ServerState).sock =
      some ()
  ∧ ∃ st', Server.hello
        { sock := some (), clients := some [], logs := some [], colorIdx := 0,
          port := some 33000, listening := some 10 } 7 ["alice", "am"] =
        .ok (st', 7,
          [SEvent.accept 7, SEvent.recv 7 "alice",
           SEvent.send 7 (Server.nextColor
             { sock := some (), clients := some [], logs := some [],
               colorIdx := 0, port := some 33000, listening := some 10 }),
           SEvent.recv 7 "am"], [])
      ∧ Server.lookupClient st' 7 =
          some { color := some (Server.nextColor
                   { sock := some (), clients := some [], logs := some [],
                     colorIdx := 0, port := some 33000,
                     listening := some 10 }),
                 name := some "alice", modulation := some "am" } :=
  ⟨rfl, C4_hello_handshake_up_to_modulation
    { sock := some (), clients := some [], logs := some [], colorIdx := 0,
      port := some 33000, listening := some 10 } 7 "alice" "am" [] rfl⟩

/-- C5 counterexample: right after `hello` accepts and assigns the color --
that is, while the handshake is still in progress, before the name has
been received -- the registry already holds a (partial) record for the
client, with only the color set.  This refutes the claim that no record
exists for a client while its handshake is in progress. -/
theorem C5_partial_record_mid_handshake_counterexample :
    Server.lookupClient
      (Server.helloInsertColor
        { sock := some (), clients := some [], logs := some [], colorIdx := 0,
          port := some 33000, listening := some 10 } 7) 7 =
      some { color := some RED, name := none, modulation := none } := rfl

/-- C5 amended: a registry entry for a client exists from the moment
`hello` assigns its palette color, immediately after the accept: at that
point it is partial (color only), it is completed (name, then modulation)
as the handshake messages arrive, the full record is in place when `hello`
returns, and `Server.bye` removes it. -/
theorem C5_record_lifecycle (st : ServerState) (c : ClientId)
    (name modu : String) (rest : List String) (h : st.sock = some ())
    (hnd : ((st.clients.getD []).map Prod.fst).Nodup) :
    Server.lookupClient (Server.helloInsertColor st c) c =
      some { color := some (Server.nextColor st), name := none,
             modulation := none }
  ∧ ∃ st', Server.hello st c (name :: modu :: rest) =
        .ok (st', c,
          [SEvent.accept c, SEvent.recv c name,
           SEvent.send c (Server.nextColor st), SEvent.recv c modu], rest)
      ∧ Server.lookupClient st' c =
          some { color := some (Server.nextColor st), name := some name,
                 modulation := some modu }
      ∧ ∃ st'', Server.bye st' c = .ok (st'', [SEvent.close c])
          ∧ Server.lookupClient st'' c = none := by
  refine ⟨lookup_after_insert_color st c,
    Server.helloSetModulation
      (Server.helloSetName (Server.helloInsertColor st c) c name) c modu,
    hello_run_spec st c name modu rest h,
    lookup_after_handshake st c name modu, ?_⟩
  have hsock : (Server.helloSetModulation
      (Server.helloSetName (Server.helloInsertColor st c) c name) c
      modu).sock = some () := by rw [sock_after_handshake, h]
  have hlk := lookup_after_handshake st c name modu
  refine ⟨_, bye_spec _ c hsock (by rw [hlk]; rfl), ?_⟩
  simp only [Server.lookupClient, Option.getD_some]
  exact dictLookup_dictDelete_self c _
    (keys_after_handshake_nodup st c name modu hnd)

/-- Witness for the amended C5 on an open concrete server with an empty
registry. -/
theorem C5_record_lifecycle_witness :
    (({ sock := some (), clients := some [], logs := some [], colorIdx := 0,
        port := some 33000, listening := some 10 } : ServerState).sock =
        some ()
      ∧ ((({ sock := some (), clients := some [], logs := some [],
             colorIdx := 0, port := some 33000,
             listening := some 10 } : ServerState).clients.getD []).map
            Prod.fst).Nodup)
  ∧ Server.lookupClient
      (Server.helloInsertColor
        { sock := some (), clients := some [], logs := some [], colorIdx := 0,
          port := some 33000, listening := some 10 } 7) 7 =
      some { color := some (Server.nextColor
               { sock := some (), clients := some [], logs := some [],
                 colorIdx := 0, port := some 33000, listening := some 10 }),
             name := none, modulation := none } := by
  have h := C5_record_lifecycle
    { sock := some (), clients := some [], logs := some [], colorIdx := 0,
      port := some 33000, listening := some 10 } 7 "alice" "am" [] rfl
    (by decide)
  exact ⟨⟨rfl, by decide⟩, h.1⟩

/-- C10: on an open server whose registry contains client `c`, `Server.bye`
removes exactly the registry entry of `c` and closes only the socket of
`c`: the registry entries of all other clients, the color-cycle position, the
event log, the listening socket, the bound port and the listen backlog are
unchanged, and the only socket operation performed is closing `c`. -/
theorem C10_bye_frame (st : ServerState) (c : ClientId) (r : ClientRecord)
    (hopen : st.sock = some ()) (hmem : Server.lookupClient st c = some r)
    (hnd : ((st.clients.getD []).map Prod.fst).Nodup) :
    ∃ st', Server.bye st c = .ok (st', [SEvent.close c])
      ∧ Server.lookupClient st' c = none
      ∧ (∀ c', c' ≠ c →
          Server.lookupClient st' c' = Server.lookupClient st c')
      ∧ st'.colorIdx = st.colorIdx ∧ st'.logs = st.logs
      ∧ st'.sock = st.sock ∧ st'.port = st.port
      ∧ st'.listening = st.listening := by
  refine ⟨{ st with clients := some (dictDelete c (st.clients.getD [])) },
    bye_spec st c hopen (by rw [hmem]; rfl), ?_, ?_, rfl, rfl, ?_, rfl, rfl⟩
  · simp only [Server.lookupClient, Option.getD_some]
    exact dictLookup_dictDelete_self c _ hnd
  · intro c' hc'
    simp only [Server.lookupClient, Option.getD_some]
    exact dictLookup_dictDelete_ne c c' _ hc'
  · rw [hopen]

/-- Witness for C10 on a concrete open server holding two clients. -/
theorem C10_bye_frame_witness :
    (({ sock := some (),
        clients := some [(1, { color := some RED }),
                         (2, { color := some GREEN })],
        logs := some ["started"], colorIdx := 2, port := some 33000,
        listening := some 10 } : ServerState).sock = some ()
      ∧ Server.lookupClient
          { sock := some (),
            clients := some [(1, { color := some RED }),
                             (2, { color := some GREEN })],
            logs := some ["started"], colorIdx := 2, port := some 33000,
            listening := some 10 } 2 = some { color := some GREEN }
      ∧ ((({ sock := some (),
             clients := some [(1, { color := some RED }),
                              (2, { color := some GREEN })],
             logs := some ["started"], colorIdx := 2, port := some 33000,
             listening := some 10 } : ServerState).clients.getD []).map
            Prod.fst).Nodup)
  ∧ ∃ st', Server.bye
        { sock := some (),
          clients := some [(1, { color := some RED }),
                           (2, { color := some GREEN })],
          logs := some ["started"], colorIdx := 2, port := some 33000,
          listening := some 10 } 2 = .ok (st', [SEvent.close 2])
      ∧ Server.lookupClient st' 2 = none
      ∧ (∀ c', c' ≠ 2 →
          Server.lookupClient st' c' = Server.lookupClient
            { sock := some (),
              clients := some [(1, { color := some RED }),
                               (2, { color := some GREEN })],
              logs := some ["started"], colorIdx := 2, port := some 33000,
              listening := some 10 } c')
      ∧ st'.colorIdx = 2 ∧ st'.logs = some ["started"]
      ∧ st'.sock = some () ∧ st'.port = some 33000
      ∧ st'.listening = some 10 :=
  ⟨⟨rfl, rfl, by decide⟩,
    C10_bye_frame
      { sock := some (),
        clients := some [(1, { color := some RED }),
                         (2, { color := some GREEN })],
        logs := some ["started"], colorIdx := 2, port := some 33000,
        listening := some 10 } 2 { color := some GREEN } rfl rfl (by decide)⟩
